import Mathlib

/-!
Verification of the ticket workflow / SLA rule engine of the
servicedesk-frontend repository, shallowly embedded from
`src/utils/ticketUtils.js`.

Timestamps are rationals (`ℚ`), in epoch milliseconds, mirroring the
JavaScript numeric timestamps produced by `Date` subtraction.  JavaScript
object lookups that may miss (`STATUS_TRANSITIONS[s]`, `SLA_TARGETS[p]`)
are embedded as `Option`-valued tables, with `none` for an absent key; the
`|| fallback` idiom becomes `Option.getD`.  The `assigned_to` and
`created_by` fields are `Option String`, `none` modelling an absent
(null/undefined) value, so `!ticket.assigned_to` becomes `Option.isNone`.

`calculateHoursOpen` in the source takes only `createdAt` and reads the
current time inside the function body via `new Date()`; the embedding makes
that ambient clock reading an explicit parameter `clockNow` so that the
functions become total and their clock dependence can be reasoned about.
-/

namespace TicketUtils

/-- The ticket fields read by the rule engine
(`status`, `priority`, `created_at`, `assigned_to`, `created_by`).
`assigned_to = none` models an absent (null/undefined) assignee. -/
structure Ticket where
  status : String
  priority : String
  created_at : ℚ
  assigned_to : Option String
  created_by : Option String
deriving Repr, DecidableEq

/-- `STATUS_TRANSITIONS` from ticketUtils.js: an object keyed by status
name; `none` models an absent key. -/
def STATUS_TRANSITIONS (currentStatus : String) : Option (List String) :=
  if currentStatus = "New" then some ["Open", "Closed"]
  else if currentStatus = "Open" then some ["Pending", "Closed"]
  else if currentStatus = "Pending" then some ["Open", "Closed"]
  else if currentStatus = "Closed" then some []
  else none

/-- `getValidTransitions = (currentStatus) => STATUS_TRANSITIONS[currentStatus] || []`. -/
def getValidTransitions (currentStatus : String) : List String :=
  (STATUS_TRANSITIONS currentStatus).getD []

/-- `canTransitionTo = (currentStatus, newStatus) =>
getValidTransitions(currentStatus).includes(newStatus)`. -/
def canTransitionTo (currentStatus newStatus : String) : Bool :=
  (getValidTransitions currentStatus).contains newStatus

/-- `SLA_TARGETS` from ticketUtils.js: `{Critical: 4, High: 8, Medium: 24,
Low: 72}`, `none` for an absent key. -/
def SLA_TARGETS (priority : String) : Option ℕ :=
  if priority = "Critical" then some 4
  else if priority = "High" then some 8
  else if priority = "Medium" then some 24
  else if priority = "Low" then some 72
  else none

/-- The lookup `SLA_TARGETS[ticket.priority] || 24` performed inside
`checkSLAViolation` (every stored target is a nonzero, hence truthy,
number, so `||` fires exactly on a missing key). -/
def slaTarget (priority : String) : ℕ :=
  (SLA_TARGETS priority).getD 24

/-- `calculateHoursOpen` from ticketUtils.js:
`(now - created) / (1000 * 60 * 60)`.  In the source `now` is read inside
the function via `new Date()`; here that ambient clock reading is the
explicit parameter `clockNow` (epoch milliseconds). -/
def calculateHoursOpen (createdAt clockNow : ℚ) : ℚ :=
  (clockNow - createdAt) / (1000 * 60 * 60)

/-- `checkSLAViolation` from ticketUtils.js.  `clockNow` is the ambient
clock reading taken inside `calculateHoursOpen`. -/
def checkSLAViolation (ticket : Ticket) (clockNow : ℚ) : Bool :=
  if ticket.status = "Closed" then false
  else
    let hoursOpen := calculateHoursOpen ticket.created_at clockNow
    let target := slaTarget ticket.priority
    decide (hoursOpen > (target : ℚ))

/-- `shouldAutoAssign = (ticket) => ticket.priority === 'Critical' && !ticket.assigned_to`. -/
def shouldAutoAssign (ticket : Ticket) : Bool :=
  ticket.priority == "Critical" && ticket.assigned_to.isNone

/-- The rule objects `{type, reason}` pushed by `getEscalationRules`. -/
structure EscalationRule where
  type : String
  reason : String
deriving Repr, DecidableEq

/-- `{ type: 'escalate', reason: 'Critical ticket open > 2 hours' }`. -/
def criticalEscalation : EscalationRule :=
  ⟨"escalate", "Critical ticket open > 2 hours"⟩

/-- `{ type: 'escalate', reason: 'High priority ticket open > 4 hours' }`. -/
def highEscalation : EscalationRule :=
  ⟨"escalate", "High priority ticket open > 4 hours"⟩

/-- `{ type: 'auto_assign', reason: 'Unassigned ticket > 24 hours' }`. -/
def unassignedAutoAssign : EscalationRule :=
  ⟨"auto_assign", "Unassigned ticket > 24 hours"⟩

/-- `getEscalationRules` from ticketUtils.js, the three sequential
`rules.push` sites embedded as list appends.  `clockNow` is the ambient
clock reading taken inside `calculateHoursOpen`. -/
def getEscalationRules (ticket : Ticket) (clockNow : ℚ) : List EscalationRule :=
  let hoursOpen := calculateHoursOpen ticket.created_at clockNow
  let rules : List EscalationRule := []
  let rules := if ticket.priority == "Critical" && decide (hoursOpen > 2)
    then rules ++ [criticalEscalation] else rules
  let rules := if ticket.priority == "High" && decide (hoursOpen > 4)
    then rules ++ [highEscalation] else rules
  let rules := if decide (hoursOpen > 24) && ticket.assigned_to.isNone
    then rules ++ [unassignedAutoAssign] else rules
  rules

/-- The `{ isValid, errors }` record returned by `validateWorkflow`. -/
structure ValidationResult where
  isValid : Bool
  errors : List String
deriving Repr, DecidableEq

/-- `validateWorkflow` from ticketUtils.js: both checks run
unconditionally, each pushing its message onto `errors`. -/
def validateWorkflow (ticket : Ticket) (newStatus userRole : String) : ValidationResult :=
  let errors : List String := []
  let errors := if !(canTransitionTo ticket.status newStatus)
    then errors ++ ["Cannot transition from " ++ ticket.status ++ " to " ++ newStatus]
    else errors
  let errors := if newStatus == "Closed" && userRole == "Normal User"
      && ticket.created_by != ticket.assigned_to
    then errors ++ ["Only assigned agent can close ticket"]
    else errors
  { isValid := errors.length == 0, errors := errors }

/-- The `{rangeLabel, severity}` classification of an aging bucket. -/
structure AgingBucket where
  rangeLabel : String
  severity : String
deriving Repr, DecidableEq

/-- Modelled from the spec: the frontend source contains no `agingBucket`
implementation — aging data arrives pre-bucketed from the backend endpoint
`/tickets/analytics/aging` consumed by `TicketAgingAnalysis.jsx`.  The
spec's table of half-open intervals: `[0,24)` low, `[24,48)` medium,
`[48,72)` high, `[72,∞)` critical. -/
def agingBucket (hoursOpen : ℚ) : AgingBucket :=
  if hoursOpen < 24 then ⟨"0-24 hours", "low"⟩
  else if hoursOpen < 48 then ⟨"24-48 hours", "medium"⟩
  else if hoursOpen < 72 then ⟨"48-72 hours", "high"⟩
  else ⟨"72+ hours", "critical"⟩

/-- The bucket classification at index `i` of the spec's table. -/
def bucketOf (i : Fin 4) : AgingBucket :=
  if i = 0 then ⟨"0-24 hours", "low"⟩
  else if i = 1 then ⟨"24-48 hours", "medium"⟩
  else if i = 2 then ⟨"48-72 hours", "high"⟩
  else ⟨"72+ hours", "critical"⟩

/-- The half-open hours range of bucket `i` of the spec's table:
`[0,24)`, `[24,48)`, `[48,72)`, `[72,∞)`. -/
def bucketRange (i : Fin 4) (h : ℚ) : Prop :=
  if i = 0 then 0 ≤ h ∧ h < 24
  else if i = 1 then 24 ≤ h ∧ h < 48
  else if i = 2 then 48 ≤ h ∧ h < 72
  else 72 ≤ h

/-- C2: the transition table is exactly the fixed table — `New ↦ [Open,
Closed]`, `Open ↦ [Pending, Closed]`, `Pending ↦ [Open, Closed]`, `Closed ↦
[]` — and `canTransitionTo Closed x` is false for every status `x`, so
`Closed` is terminal. -/
theorem transition_table_spec :
    getValidTransitions "New" = ["Open", "Closed"] ∧
    getValidTransitions "Open" = ["Pending", "Closed"] ∧
    getValidTransitions "Pending" = ["Open", "Closed"] ∧
    getValidTransitions "Closed" = [] ∧
    ∀ x : String, canTransitionTo "Closed" x = false :=
  ⟨rfl, rfl, rfl, rfl, fun _ => rfl⟩

/-- C1: `checkSLAViolation` returns false for a `Closed` ticket regardless
of elapsed time, and otherwise equals `hoursOpen > slaTarget` with strict
greater-than; in particular a ticket open exactly the target number of
hours is not violated. -/
theorem checkSLAViolation_spec (t : Ticket) (clockNow : ℚ) :
    checkSLAViolation t clockNow =
      (decide (t.status ≠ "Closed") &&
        decide (calculateHoursOpen t.created_at clockNow > (slaTarget t.priority : ℚ)))
    ∧ (calculateHoursOpen t.created_at clockNow = (slaTarget t.priority : ℚ) →
        checkSLAViolation t clockNow = false) := by
  constructor
  · by_cases h : t.status = "Closed" <;> simp [checkSLAViolation, h]
  · intro heq
    by_cases h : t.status = "Closed" <;> simp [checkSLAViolation, h, heq]

/-- Witness for C1: a Closed Critical ticket open 100 hours is not
violated, and an Open Critical ticket open exactly its 4-hour target
(clock at 14400000 ms past creation) is not violated. -/
theorem checkSLAViolation_spec_witness :
    checkSLAViolation ⟨"Closed", "Critical", 0, some "a", some "u"⟩ 360000000 = false
    ∧ checkSLAViolation ⟨"Open", "Critical", 0, some "a", some "u"⟩ 14400000 = false := by
  constructor
  · have h := (checkSLAViolation_spec ⟨"Closed", "Critical", 0, some "a", some "u"⟩ 360000000).1
    simpa using h
  · exact (checkSLAViolation_spec ⟨"Open", "Critical", 0, some "a", some "u"⟩ 14400000).2
      (by norm_num [calculateHoursOpen, slaTarget, SLA_TARGETS])

/-- C4: `slaTarget` maps Critical to 4, High to 8, Medium to 24, Low to 72;
every other priority string resolves to the Medium default 24; hence the
result is always one of {4, 8, 24, 72}. -/
theorem slaTarget_spec :
    slaTarget "Critical" = 4 ∧ slaTarget "High" = 8 ∧
    slaTarget "Medium" = 24 ∧ slaTarget "Low" = 72 ∧
    (∀ p : String, p ∉ (["Critical", "High", "Medium", "Low"] : List String) →
      slaTarget p = 24) ∧
    (∀ p : String, slaTarget p ∈ ([4, 8, 24, 72] : List ℕ)) := by
  refine ⟨rfl, rfl, rfl, rfl, ?_, ?_⟩
  · intro p hp
    simp only [List.mem_cons, List.not_mem_nil, or_false, not_or] at hp
    obtain ⟨h1, h2, h3, h4⟩ := hp
    simp [slaTarget, SLA_TARGETS, h1, h2, h3, h4]
  · intro p
    unfold slaTarget SLA_TARGETS
    split_ifs <;> simp

/-- Witness for C4: the unknown priority string "Urgent" resolves to 24. -/
theorem slaTarget_spec_witness : slaTarget "Urgent" = 24 :=
  slaTarget_spec.2.2.2.2.1 "Urgent" (by decide)

/-- C8: `shouldAutoAssign t` is true iff `t.priority = Critical` and
`t.assigned_to` is absent, and its result depends on no other field: any
two tickets agreeing on `priority` and `assigned_to` get the same answer. -/
theorem shouldAutoAssign_spec (t : Ticket) :
    (shouldAutoAssign t = true ↔ t.priority = "Critical" ∧ t.assigned_to = none)
    ∧ (∀ t2 : Ticket, t.priority = t2.priority → t.assigned_to = t2.assigned_to →
        shouldAutoAssign t = shouldAutoAssign t2) := by
  constructor
  · simp [shouldAutoAssign, Option.isNone_iff_eq_none]
  · intro t2 hp ha
    simp [shouldAutoAssign, hp, ha]

/-- Witness for C8: a Critical unassigned ticket auto-assigns, and the
answer is unchanged when only status, creation time and creator differ. -/
theorem shouldAutoAssign_spec_witness :
    shouldAutoAssign ⟨"Open", "Critical", 0, none, some "u"⟩ = true
    ∧ shouldAutoAssign ⟨"Open", "Critical", 0, none, some "u"⟩ =
        shouldAutoAssign ⟨"Closed", "Critical", 99, none, some "v"⟩ :=
  ⟨(shouldAutoAssign_spec ⟨"Open", "Critical", 0, none, some "u"⟩).1.mpr ⟨rfl, rfl⟩,
   (shouldAutoAssign_spec ⟨"Open", "Critical", 0, none, some "u"⟩).2
     ⟨"Closed", "Critical", 99, none, some "v"⟩ rfl rfl⟩

/-- C3: `validateWorkflow` accumulates all applicable violations as data —
the errors list is the concatenation of the transition-table message (added
exactly when `canTransitionTo` fails) and the assigned-agent message (added
exactly when the proposed status is Closed, the role is "Normal User" and
`created_by ≠ assigned_to`); when both conditions hold both messages appear
in that order, and the result is valid exactly when the list is empty. -/
theorem validateWorkflow_accumulates (t : Ticket) (newStatus userRole : String) :
    (validateWorkflow t newStatus userRole).errors =
      (if canTransitionTo t.status newStatus = true then []
       else ["Cannot transition from " ++ t.status ++ " to " ++ newStatus]) ++
      (if newStatus = "Closed" ∧ userRole = "Normal User" ∧ t.created_by ≠ t.assigned_to
       then ["Only assigned agent can close ticket"] else [])
    ∧ (canTransitionTo t.status newStatus = false →
       (newStatus = "Closed" ∧ userRole = "Normal User" ∧ t.created_by ≠ t.assigned_to) →
       (validateWorkflow t newStatus userRole).errors =
         ["Cannot transition from " ++ t.status ++ " to " ++ newStatus,
          "Only assigned agent can close ticket"])
    ∧ ((validateWorkflow t newStatus userRole).isValid = true ↔
       (validateWorkflow t newStatus userRole).errors = []) := by
  have hstruct : (validateWorkflow t newStatus userRole).errors =
      (if canTransitionTo t.status newStatus = true then []
       else ["Cannot transition from " ++ t.status ++ " to " ++ newStatus]) ++
      (if newStatus = "Closed" ∧ userRole = "Normal User" ∧ t.created_by ≠ t.assigned_to
       then ["Only assigned agent can close ticket"] else []) := by
    by_cases hA : newStatus = "Closed" <;>
      by_cases hB : userRole = "Normal User" <;>
      by_cases hC : t.created_by = t.assigned_to <;>
      by_cases h1 : canTransitionTo t.status newStatus = true <;>
      simp_all [validateWorkflow]
  refine ⟨hstruct, ?_, ?_⟩
  · intro h1 h2
    rw [hstruct, h1]
    simp [h2]
  · simp [validateWorkflow, List.length_eq_zero]

/-- Witness for C3: a Normal User proposing Closed on an already-Closed
ticket whose creator is not its (absent) assignee triggers both violations,
in order. -/
theorem validateWorkflow_accumulates_witness :
    (validateWorkflow ⟨"Closed", "Medium", 0, none, some "u"⟩ "Closed" "Normal User").errors =
      ["Cannot transition from Closed to Closed",
       "Only assigned agent can close ticket"] :=
  (validateWorkflow_accumulates ⟨"Closed", "Medium", 0, none, some "u"⟩
    "Closed" "Normal User").2.1 (by decide) (by decide)

/-- C5: whenever `canTransitionTo from to` holds, `validateWorkflow` on a
ticket in state `from` targeting `to`, with any role that does not trigger
the Normal-User-closing special case, returns no violations. -/
theorem validateWorkflow_roundtrip (t : Ticket) (tgt role : String)
    (hcan : canTransitionTo t.status tgt = true)
    (hrole : ¬(tgt = "Closed" ∧ role = "Normal User" ∧ t.created_by ≠ t.assigned_to)) :
    (validateWorkflow t tgt role).errors = [] ∧
    (validateWorkflow t tgt role).isValid = true := by
  have hcond : (tgt == "Closed" && role == "Normal User"
      && t.created_by != t.assigned_to) = false := by
    rw [Bool.eq_false_iff]
    intro hc
    simp only [Bool.and_eq_true, beq_iff_eq, bne_iff_ne] at hc
    exact hrole ⟨hc.1.1, hc.1.2, hc.2⟩
  simp [validateWorkflow, hcan, hcond]

/-- Witness for C5: a Technical User moving a New ticket to Open gets an
empty violation list. -/
theorem validateWorkflow_roundtrip_witness :
    (validateWorkflow ⟨"New", "Medium", 0, some "agent", some "user"⟩
      "Open" "Technical User").errors = [] ∧
    (validateWorkflow ⟨"New", "Medium", 0, some "agent", some "user"⟩
      "Open" "Technical User").isValid = true :=
  validateWorkflow_roundtrip ⟨"New", "Medium", 0, some "agent", some "user"⟩
    "Open" "Technical User" (by decide) (by decide)

/-- Helper: the sequential rule pushes of `getEscalationRules` equal the
concatenation of three independent conditional singletons. -/
theorem escalationRules_concat (s : Ticket) (c : ℚ) :
    getEscalationRules s c =
      (if s.priority = "Critical" ∧ calculateHoursOpen s.created_at c > 2
        then [criticalEscalation] else []) ++
      (if s.priority = "High" ∧ calculateHoursOpen s.created_at c > 4
        then [highEscalation] else []) ++
      (if calculateHoursOpen s.created_at c > 24 ∧ s.assigned_to = none
        then [unassignedAutoAssign] else []) := by
  by_cases hp : s.priority = "Critical" <;>
    by_cases hq : s.priority = "High" <;>
    by_cases h2 : calculateHoursOpen s.created_at c > 2 <;>
    by_cases h4 : calculateHoursOpen s.created_at c > 4 <;>
    by_cases h24 : calculateHoursOpen s.created_at c > 24 <;>
    by_cases ha : s.assigned_to = none <;>
    simp_all [getEscalationRules, Option.isNone_iff_eq_none] <;>
    (try split_ifs) <;>
    rfl

/-- C6: `getEscalationRules` evaluates its three rules independently, in
the fixed order Critical-over-2h, High-over-4h, unassigned-over-24h, so the
result is the concatenation of the three (0–1 element) rule firings, has at
most 3 entries, and for a Critical, unassigned ticket open 30 hours it is
exactly the Critical-escalation entry followed by the auto-assign entry. -/
theorem getEscalationRules_spec (t : Ticket) (clockNow : ℚ) :
    getEscalationRules t clockNow =
      (if t.priority = "Critical" ∧ calculateHoursOpen t.created_at clockNow > 2
        then [criticalEscalation] else []) ++
      (if t.priority = "High" ∧ calculateHoursOpen t.created_at clockNow > 4
        then [highEscalation] else []) ++
      (if calculateHoursOpen t.created_at clockNow > 24 ∧ t.assigned_to = none
        then [unassignedAutoAssign] else [])
    ∧ (getEscalationRules t clockNow).length ≤ 3
    ∧ getEscalationRules ⟨"Open", "Critical", 0, none, some "u"⟩ 108000000 =
        [criticalEscalation, unassignedAutoAssign] := by
  refine ⟨escalationRules_concat t clockNow, ?_, ?_⟩
  · rw [escalationRules_concat t clockNow]
    split_ifs <;> decide
  · rw [escalationRules_concat ⟨"Open", "Critical", 0, none, some "u"⟩ 108000000]
    norm_num [calculateHoursOpen]
    decide

/-- C9: the spec-modelled `agingBucket` realises the partition of the
non-negative hours range into the four contiguous half-open buckets
`[0,24)`, `[24,48)`, `[48,72)`, `[72,∞)`: every `h ≥ 0` lies in exactly one
bucket range, and `agingBucket h` returns that bucket's classification. -/
theorem agingBucket_partition (h : ℚ) (hnn : 0 ≤ h) :
    ∃! i : Fin 4, bucketRange i h ∧ agingBucket h = bucketOf i := by
  rcases lt_or_le h 24 with hA | hA
  · refine ⟨0, ⟨by simp [bucketRange, hnn, hA], by simp [agingBucket, bucketOf, hA]⟩, ?_⟩
    rintro j ⟨hr, _⟩
    fin_cases j
    · rfl
    · simp [bucketRange] at hr; linarith [hr.1]
    · simp [bucketRange] at hr; linarith [hr.1]
    · simp [bucketRange] at hr; linarith
  · rcases lt_or_le h 48 with hB | hB
    · refine ⟨1, ⟨by simp [bucketRange, hA, hB],
        by simp [agingBucket, bucketOf, not_lt.mpr hA, hB]⟩, ?_⟩
      rintro j ⟨hr, _⟩
      fin_cases j
      · simp [bucketRange] at hr; linarith [hr.2]
      · rfl
      · simp [bucketRange] at hr; linarith [hr.1]
      · simp [bucketRange] at hr; linarith
    · rcases lt_or_le h 72 with hC | hC
      · refine ⟨2, ⟨by simp [bucketRange, hB, hC],
          by simp [agingBucket, bucketOf, not_lt.mpr hA, not_lt.mpr hB, hC]⟩, ?_⟩
        rintro j ⟨hr, _⟩
        fin_cases j
        · simp [bucketRange] at hr; linarith [hr.2]
        · simp [bucketRange] at hr; linarith [hr.2]
        · rfl
        · simp [bucketRange] at hr; linarith
      · refine ⟨3, ⟨by simp [bucketRange, hC],
          by simp [agingBucket, bucketOf, not_lt.mpr hA, not_lt.mpr hB, not_lt.mpr hC]⟩, ?_⟩
        rintro j ⟨hr, _⟩
        fin_cases j
        · simp [bucketRange] at hr; linarith [hr.2]
        · simp [bucketRange] at hr; linarith [hr.2]
        · simp [bucketRange] at hr; linarith [hr.2]
        · rfl

/-- Witness for C9: 30 hours lies in exactly one bucket (the `[24,48)`
"24-48 hours"/medium one). -/
theorem agingBucket_partition_witness :
    ∃! i : Fin 4, bucketRange i 30 ∧ agingBucket 30 = bucketOf i :=
  agingBucket_partition 30 (by norm_num)

/-- C10: `getEscalationRules` never reads `status` — changing only the
status field never changes the rule list — and in particular a Closed
Critical ticket open 3 hours still yields the escalate rule even though
`checkSLAViolation` is suppressed to false for it. -/
theorem getEscalationRules_ignores_status (t : Ticket) (s : String) (clockNow : ℚ) :
    getEscalationRules { t with status := s } clockNow = getEscalationRules t clockNow
    ∧ getEscalationRules ⟨"Closed", "Critical", 0, some "a", some "u"⟩ 10800000 =
        [criticalEscalation]
    ∧ checkSLAViolation ⟨"Closed", "Critical", 0, some "a", some "u"⟩ 10800000 = false := by
  refine ⟨rfl, ?_, rfl⟩
  rw [escalationRules_concat ⟨"Closed", "Critical", 0, some "a", some "u"⟩ 10800000]
  norm_num [calculateHoursOpen]

/-- C7 counterexample: the source's `calculateHoursOpen` takes no `now`
parameter — it reads the global clock via `new Date()` inside its body — so
the result of an operation is not determined by its explicit JavaScript
arguments alone.  Concretely, `checkSLAViolation` called twice on the very
same Open Critical ticket (created at epoch 0) returns different answers
when the ambient clock read inside the engine moves from 0 to 100 hours
(360000000 ms), refuting "two calls with the same (ticket, now) arguments
always return the same result" as a statement about the code's parameter
lists. -/
theorem clock_dependence_counterexample :
    checkSLAViolation ⟨"Open", "Critical", 0, some "a", some "u"⟩ 0 ≠
      checkSLAViolation ⟨"Open", "Critical", 0, some "a", some "u"⟩ 360000000 := by
  norm_num [checkSLAViolation, calculateHoursOpen, slaTarget, SLA_TARGETS]
  decide

/-- C7 amended: every engine operation is a deterministic pure function of
the ticket fields it reads together with the ambient clock reading taken
inside `calculateHoursOpen` (which the source obtains from `new Date()`
internally rather than as a parameter): any two calls agreeing on status,
priority, assignee and elapsed milliseconds produce identical results. -/
theorem engine_clock_extensional (t1 t2 : Ticket) (c1 c2 : ℚ)
    (hs : t1.status = t2.status) (hp : t1.priority = t2.priority)
    (ha : t1.assigned_to = t2.assigned_to)
    (he : c1 - t1.created_at = c2 - t2.created_at) :
    calculateHoursOpen t1.created_at c1 = calculateHoursOpen t2.created_at c2
    ∧ checkSLAViolation t1 c1 = checkSLAViolation t2 c2
    ∧ getEscalationRules t1 c1 = getEscalationRules t2 c2 := by
  have hh : calculateHoursOpen t1.created_at c1 = calculateHoursOpen t2.created_at c2 := by
    unfold calculateHoursOpen
    rw [he]
  refine ⟨hh, ?_, ?_⟩
  · simp only [checkSLAViolation]
    rw [hs, hp, hh]
  · simp only [getEscalationRules]
    rw [hp, ha, hh]

/-- Witness for C7 amended: two tickets created an hour apart, each
evaluated one hour after creation, agree on every operation. -/
theorem engine_clock_extensional_witness :
    calculateHoursOpen (0 : ℚ) 3600000 = calculateHoursOpen 3600000 7200000
    ∧ checkSLAViolation ⟨"Open", "Critical", 0, some "a", some "u"⟩ 3600000 =
        checkSLAViolation ⟨"Open", "Critical", 3600000, some "a", some "u"⟩ 7200000
    ∧ getEscalationRules ⟨"Open", "Critical", 0, some "a", some "u"⟩ 3600000 =
        getEscalationRules ⟨"Open", "Critical", 3600000, some "a", some "u"⟩ 7200000 :=
  engine_clock_extensional
    ⟨"Open", "Critical", 0, some "a", some "u"⟩
    ⟨"Open", "Critical", 3600000, some "a", some "u"⟩
    3600000 7200000 rfl rfl rfl (by norm_num)

end TicketUtils
